import Mathlib

/-!
Shallow embedding of the fastapi-blog repository (src/main.py, src/schemas.py).

The backing store is modelled as a `Store` of user rows and post rows; each
handler in src/main.py becomes a pure function from a `Store` (and its request
parameters) to the resulting `Store` paired with an `Except`-style outcome, so
that a handler that raises before committing leaves the store component equal
to its input. SQLAlchemy `result.scalars().first()` on a where-clause becomes
`List.find?`; mutating the ORM object returned by `first()` and committing
becomes replacing the first row with the matching id.

Pydantic models with optional fields are embedded with a tri-state `Tri` field
wrapper (absent / explicitly null / value), since src/main.py distinguishes
`model_dump(exclude_unset=True)` in the post PATCH handler from `is not None`
checks in update_user. The source handler named update_post_partial is
embedded here as `update_post_patch`.
-/

/-- FastAPI `HTTPException`: a status code plus a detail message. -/
structure HTTPException where
  status_code : Nat
  detail : String
deriving Repr, DecidableEq

/-- Tri-state for an optional pydantic field of a request body: the field can be
absent from the payload, present as an explicit `null`, or present with a value.
`model_dump(exclude_unset=True)` keeps `null`/`val`; an `is not None` test on
the parsed attribute sees only `val`. -/
inductive Tri (α : Type) where
  | unset
  | null
  | val (a : α)
deriving Repr, DecidableEq

/-- The parsed attribute value of a tri-state field, as Python code reads it:
both an absent field and an explicit null read back as `None`. -/
def Tri.value : Tri α → Option α
  | .unset => none
  | .null => none
  | .val a => some a

/-- Whether the field was present in the payload (pydantic "fields set"). -/
def Tri.isSet : Tri α → Bool
  | .unset => false
  | .null => true
  | .val _ => true

/-- A stored User row (models.User; models.py is not in src/, its columns are
taken from the spec data model: id, username, email, optional image_file). -/
structure User where
  id : Nat
  username : String
  email : String
  image_file : Option String
deriving Repr, DecidableEq

/-- A stored Post row (models.Post; models.py is not in src/, its columns are
taken from the spec data model: id, title, content, published, user_id,
creation timestamp). The timestamp is modelled as a `Nat` tick. -/
structure Post where
  id : Nat
  title : String
  content : String
  published : Bool
  user_id : Nat
  date_posted : Nat
deriving Repr, DecidableEq

/-- Modelled from the spec: models.py is not in src/; the spec data model gives
the Post published flag "boolean, default false", used when create_post builds
a `models.Post` without passing `published`. -/
def defaultPublished : Bool := false

/-- The backing store: the users table and the posts table, each in insertion
(rowid) order, plus a clock supplying system-assigned creation timestamps. -/
structure Store where
  users : List User
  posts : List Post
  clock : Nat
deriving Repr, DecidableEq

/-- System-assigned fresh integer identifier for a new row. -/
def nextId (ids : List Nat) : Nat := ids.foldl max 0 + 1

/-- Replace the first row whose id matches (the ORM mutates the single object
returned by `first()` in place, then commits). -/
def replaceUser : List User → User → List User
  | [], _ => []
  | u :: us, u2 => if u.id == u2.id then u2 :: us else u :: replaceUser us u2

/-- Replace the first post whose id matches, as `replaceUser`. -/
def replacePost : List Post → Post → List Post
  | [], _ => []
  | p :: ps, p2 => if p.id == p2.id then p2 :: ps else p :: replacePost ps p2

/-- schemas.UserCreate: username and email, both required (constraints enforced
by pydantic before the handler runs; the handler receives validated values). -/
structure UserCreate where
  username : String
  email : String
deriving Repr, DecidableEq

/-- schemas.UserUpdate: every field optional (`str | None = None`). -/
structure UserUpdate where
  username : Tri String
  email : Tri String
  image_file : Tri String
deriving Repr, DecidableEq

/-- schemas.PostCreate: title, content, user_id required; published optional
with default False. The handler receives validated values. -/
structure PostCreate where
  title : String
  content : String
  published : Bool
  user_id : Nat
deriving Repr, DecidableEq

/-- schemas.PostUpdate: every field optional. -/
structure PostUpdate where
  title : Tri String
  content : Tri String
  published : Tri Bool
deriving Repr, DecidableEq

/-- GET / and GET /posts (src/main.py home): `select(models.Post)` with an
eager load of the author relationship and no order_by clause, so rows come
back in table (insertion) order. -/
def home (db : Store) : List Post := db.posts

/-- POST /api/users (src/main.py create_user): check username uniqueness, then
email uniqueness, each failing with a 400; otherwise insert the new row. -/
def create_user (db : Store) (user : UserCreate) : Store × Except HTTPException User :=
  match db.users.find? (fun u => u.username == user.username) with
  | some _ => (db, .error ⟨400, "Username already exists"⟩)
  | none =>
    match db.users.find? (fun u => u.email == user.email) with
    | some _ => (db, .error ⟨400, "Email already registered"⟩)
    | none =>
      let nu : User :=
        { id := nextId (db.users.map User.id)
          username := user.username
          email := user.email
          image_file := none }
      ({ db with users := db.users ++ [nu] }, .ok nu)

/-- The username-conflict test of update_user: the parsed username attribute is
not None, differs from the current one, and some stored row already has it. -/
def usernameTaken (db : Store) (user : User) (uu : UserUpdate) : Bool :=
  match uu.username.value with
  | some un => un != user.username && (db.users.find? (fun u => u.username == un)).isSome
  | none => false

/-- The email-conflict test of update_user, as `usernameTaken`. -/
def emailTaken (db : Store) (user : User) (uu : UserUpdate) : Bool :=
  match uu.email.value with
  | some em => em != user.email && (db.users.find? (fun u => u.email == em)).isSome
  | none => false

/-- PATCH /api/users/\x7buser_id\x7d (src/main.py update_user): look up the user,
run the two uniqueness checks, then apply each field guarded by
`if ... is not None` — an explicit null therefore behaves like an absent field. -/
def update_user (db : Store) (user_id : Nat) (uu : UserUpdate) :
    Store × Except HTTPException User :=
  match db.users.find? (fun u => u.id == user_id) with
  | none => (db, .error ⟨404, "User not found"⟩)
  | some user =>
    if usernameTaken db user uu then (db, .error ⟨400, "Username already exists"⟩)
    else if emailTaken db user uu then (db, .error ⟨400, "Email already registered"⟩)
    else
      let user2 : User :=
        { user with
          username := (uu.username.value).getD user.username
          email := (uu.email.value).getD user.email
          image_file :=
            match uu.image_file.value with
            | some f => some f
            | none => user.image_file }
      ({ db with users := replaceUser db.users user2 }, .ok user2)

/-- POST /api/posts (src/main.py create_post): check the owning user exists,
else 404; otherwise insert a new post built from title, content and user_id
only — the payload published value is never passed to `models.Post`. -/
def create_post (db : Store) (post : PostCreate) : Store × Except HTTPException Post :=
  match db.users.find? (fun u => u.id == post.user_id) with
  | none => (db, .error ⟨404, "User not found"⟩)
  | some _ =>
    let np : Post :=
      { id := nextId (db.posts.map Post.id)
        title := post.title
        content := post.content
        published := defaultPublished
        user_id := post.user_id
        date_posted := db.clock }
    ({ db with posts := db.posts ++ [np], clock := db.clock + 1 }, .ok np)

/-- GET /api/posts/\x7bpost_id\x7d (src/main.py get_post): select by id with the
author eagerly loaded; 404 with detail "Post not found" when absent. -/
def get_post (db : Store) (post_id : Nat) : Except HTTPException Post :=
  match db.posts.find? (fun p => p.id == post_id) with
  | some post => .ok post
  | none => .error ⟨404, "Post not found"⟩

/-- PUT /api/posts/\x7bpost_id\x7d (src/main.py update_post_full): look up the
post; if the new user_id differs from the current one, require that user to
exist; then overwrite title, content and user_id (published is not written). -/
def update_post_full (db : Store) (post_id : Nat) (pd : PostCreate) :
    Store × Except HTTPException Post :=
  match db.posts.find? (fun p => p.id == post_id) with
  | none => (db, .error ⟨404, "Post not found"⟩)
  | some post =>
    if pd.user_id != post.user_id &&
        (db.users.find? (fun u => u.id == pd.user_id)).isNone then
      (db, .error ⟨404, "User not found"⟩)
    else
      let post2 : Post :=
        { post with title := pd.title, content := pd.content, user_id := pd.user_id }
      ({ db with posts := replacePost db.posts post2 }, .ok post2)

/-- PATCH /api/posts/\x7bpost_id\x7d (the src/main.py handler named
update_post_partial, embedded under the name `update_post_patch`): look up
the post, then `setattr` every field of `model_dump(exclude_unset=True)`. A
field present as an explicit null is in that dump and would be written as None
into a non-nullable column, failing the commit (modelled from the spec: all
Post columns in the data model are non-nullable), which the handler does not
catch; this surfaces as a store-level integrity failure with no row changed. -/
inductive PatchResult where
  | ok (p : Post)
  | httpError (e : HTTPException)
  | integrityError
deriving Repr, DecidableEq

/-- See `PatchResult`. -/
def update_post_patch (db : Store) (post_id : Nat) (pd : PostUpdate) :
    Store × PatchResult :=
  match db.posts.find? (fun p => p.id == post_id) with
  | none => (db, .httpError ⟨404, "Post not found"⟩)
  | some post =>
    if pd.title == .null || pd.content == .null || pd.published == .null then
      (db, .integrityError)
    else
      let post2 : Post :=
        { post with
          title := match pd.title with | .val v => v | _ => post.title
          content := match pd.content with | .val v => v | _ => post.content
          published := match pd.published with | .val v => v | _ => post.published }
      ({ db with posts := replacePost db.posts post2 }, .ok post2)

/-- A rendered HTML error page (templates.TemplateResponse on error.html):
the status code plus the title and message placed in the template context. -/
structure ErrorPage where
  status_code : Nat
  title : String
  message : String
deriving Repr, DecidableEq

/-- One entry of a pydantic validation error list (field location and message). -/
structure ValidationErrorItem where
  loc : String
  msg : String
deriving Repr, DecidableEq

/-- A response produced by one of the two error translators. -/
inductive ErrorResponse where
  | json (status : Nat) (detail : String)
  | jsonErrors (status : Nat) (errs : List ValidationErrorItem)
  | page (p : ErrorPage)
deriving Repr, DecidableEq

/-- Python `str.startswith`, embedded as a prefix test on the character
sequence of the path (`request.url.path.startswith("/api")` in src/main.py). -/
def startswith (path pre : String) : Bool :=
  pre.toList.isPrefixOf path.toList

/-- The FastAPI library helper `fastapi.exception_handlers.http_exception_handler`
(external library code, modelled from its documented behavior): a JSON body
carrying the detail, with the status code of the exception. -/
def fastapiHttpExceptionHandler (exc : HTTPException) : ErrorResponse :=
  .json exc.status_code exc.detail

/-- src/main.py http_exception_handler: the module-level definition at line 362
rebinds the very name imported at line 7, so the call inside the api branch
resolves to the handler itself and recurses; `fuel` bounds the recursion depth,
`none` meaning the call never returns a response. The non-api branch renders
the error page template. -/
def http_exception_handler : Nat → String → HTTPException → Option ErrorResponse
  | 0, _, _ => none
  | fuel + 1, path, exc =>
    if startswith path "/api" then
      http_exception_handler fuel path exc
    else
      some (.page ⟨exc.status_code, "Something went wrong", exc.detail⟩)

/-- The FastAPI library helper `request_validation_exception_handler` (external
library code, modelled from its documented behavior): JSON status 422 with the
per-field error list as detail. -/
def fastapiValidationHandler (errs : List ValidationErrorItem) : ErrorResponse :=
  .jsonErrors 422 errs

/-- src/main.py validation_exception_handler: api paths delegate to the FastAPI
helper (here the imported name is not shadowed); other paths render the error
page template with status 422 and one fixed generic message. -/
def validation_exception_handler (path : String) (errs : List ValidationErrorItem) :
    ErrorResponse :=
  if startswith path "/api" then
    fastapiValidationHandler errs
  else
    .page ⟨422, "Invalid Request",
      "Some fields contain invalid data. Please check your input and try again."⟩

/-- A raw JSON request body for the Post create/full-update schema, before
pydantic validation: each field absent, null, or present. -/
structure RawPostPayload where
  title : Tri String
  content : Tri String
  published : Tri Bool
  user_id : Tri Nat
deriving Repr, DecidableEq

/-- Pydantic validation of schemas.PostCreate over a raw payload: title
required with length 1 to 255, content required non-empty, user_id required,
published optional defaulting to False; errors are collected per field. -/
def postCreateErrors (raw : RawPostPayload) : List ValidationErrorItem :=
  (match raw.title with
      | .unset => [⟨"title", "Field required"⟩]
      | .null => [⟨"title", "Input should be a valid string"⟩]
      | .val s =>
        if s.length < 1 then [⟨"title", "String should have at least 1 character"⟩]
        else if s.length > 255 then [⟨"title", "String should have at most 255 characters"⟩]
        else []) ++
    (match raw.content with
      | .unset => [⟨"content", "Field required"⟩]
      | .null => [⟨"content", "Input should be a valid string"⟩]
      | .val s =>
        if s.length < 1 then [⟨"content", "String should have at least 1 character"⟩]
        else []) ++
    (match raw.published with
      | .unset => []
      | .null => [⟨"published", "Input should be a valid boolean"⟩]
      | .val _ => []) ++
    (match raw.user_id with
      | .unset => [⟨"user_id", "Field required"⟩]
      | .null => [⟨"user_id", "Input should be a valid integer"⟩]
      | .val _ => [])

/-- The validation verdict over `postCreateErrors`: a typed PostCreate when no
field failed, the collected error list otherwise. -/
def validatePostCreate (raw : RawPostPayload) : Except (List ValidationErrorItem) PostCreate :=
  if (postCreateErrors raw).isEmpty then
    .ok
      { title := (raw.title.value).getD ""
        content := (raw.content.value).getD ""
        published := (raw.published.value).getD false
        user_id := (raw.user_id.value).getD 0 }
  else .error (postCreateErrors raw)

/-- A PUT /api/posts request outcome: a validation failure (translated to a 422
by the validation handler), a domain HTTPException, or the updated post. -/
inductive ApiFailure where
  | http (e : HTTPException)
  | validation (errs : List ValidationErrorItem)
deriving Repr, DecidableEq

/-- The PUT /api/posts/\x7bpost_id\x7d pipeline: pydantic validates the body
into a PostCreate before update_post_full runs; a validation failure means the
handler is never entered and the store is untouched. -/
def put_post_endpoint (db : Store) (post_id : Nat) (raw : RawPostPayload) :
    Store × Except ApiFailure Post :=
  match validatePostCreate raw with
  | .error errs => (db, .error (.validation errs))
  | .ok pd =>
    let r := update_post_full db post_id pd
    (r.1, r.2.mapError ApiFailure.http)

/-- The referential invariant of the store: every stored post's owning-user
reference names a stored user. -/
def PostsValid (db : Store) : Prop :=
  ∀ p ∈ db.posts, ∃ u ∈ db.users, u.id = p.user_id

/-- The api branch of the shadowed exception handler only ever calls itself,
so it yields no response whatever the recursion budget. -/
theorem api_branch_no_response (fuel : Nat) (path : String) (exc : HTTPException)
    (h : startswith path "/api" = true) :
    http_exception_handler fuel path exc = none := by
  induction fuel with
  | zero => rfl
  | succ n ih => simp [http_exception_handler, h, ih]

/-- C1: the spec claims that an api-path request whose handler raises a domain
HTTP failure is answered by a structured JSON error body preserving the status
code. The definition at src/main.py line 362 rebinds the imported FastAPI
helper of the same name, so the api branch calls itself and produces no
response for any recursion budget, while the intended helper would have
returned the JSON body with the status preserved. -/
theorem C1_api_error_translator_diverges (fuel : Nat) (path : String)
    (exc : HTTPException) (hpath : startswith path "/api" = true) :
    http_exception_handler fuel path exc = none ∧
      fastapiHttpExceptionHandler exc = .json exc.status_code exc.detail :=
  ⟨api_branch_no_response fuel path exc hpath, rfl⟩

/-- Concrete run of C1 at the scenario request GET /api/posts/9999. -/
theorem C1_api_error_translator_diverges_witness :
    startswith "/api/posts/9999" "/api" = true ∧
      (http_exception_handler 1000 "/api/posts/9999" ⟨404, "Post not found"⟩ = none ∧
        fastapiHttpExceptionHandler ⟨404, "Post not found"⟩ =
          .json 404 "Post not found") :=
  ⟨by decide,
    C1_api_error_translator_diverges 1000 "/api/posts/9999"
      ⟨404, "Post not found"⟩ (by decide)⟩

/-- C2: the claim that the home listing is ordered newest-first fails on a
store holding an older post before a newer one: home returns table order, so
the output is not descending in the creation timestamp. -/
theorem C2_home_not_newest_first :
    home ⟨[⟨1, "alice", "alice@example.com", none⟩],
        [⟨1, "older", "a", false, 1, 1⟩, ⟨2, "newer", "b", false, 1, 2⟩], 3⟩ =
      [⟨1, "older", "a", false, 1, 1⟩, ⟨2, "newer", "b", false, 1, 2⟩] ∧
    ¬ List.Chain' (fun a b : Post => b.date_posted ≤ a.date_posted)
      (home ⟨[⟨1, "alice", "alice@example.com", none⟩],
        [⟨1, "older", "a", false, 1, 1⟩, ⟨2, "newer", "b", false, 1, 2⟩], 3⟩) := by
  refine ⟨rfl, ?_⟩
  simp [home, List.chain'_cons]

/-- C2 amended: the home-page query carries no order_by, so home returns
exactly the stored posts in table (insertion) order, with no newest-first
reordering applied. -/
theorem C2_home_lists_all_posts_in_store_order (db : Store) :
    home db = db.posts ∧ ∀ p : Post, p ∈ home db ↔ p ∈ db.posts :=
  ⟨rfl, fun _ => Iff.rfl⟩

/-- C3: the claim that a field explicitly set to null is applied as a provided
null fails at update_user: image_file admits null, the field is present in the
payload, yet the stored image_file is left untouched rather than cleared. -/
theorem C3_explicit_null_ignored :
    (UserUpdate.mk .unset .unset .null).image_file.isSet = true ∧
      (update_user ⟨[⟨1, "alice", "alice@example.com", some "a.png"⟩], [], 0⟩ 1
          ⟨.unset, .unset, .null⟩).2 =
        .ok ⟨1, "alice", "alice@example.com", some "a.png"⟩ ∧
      some "a.png" ≠ (none : Option String) := by
  refine ⟨rfl, rfl, by simp⟩

/-- C3 amended: both partial updates leave absent fields untouched and apply
explicitly supplied values, but a field explicitly set to null is never
applied as a provided null. Every write in the User PATCH is guarded by an
is-not-None test, so a User field set to null is treated as absent; the Post
PATCH keeps an explicit null in its exclude-unset dump, but every Post column
is non-nullable, so that request fails the commit with the store unchanged. -/
theorem C3_partial_update_semantics :
    (∀ (db : Store) (uid : Nat) (uu : UserUpdate) (user : User),
        db.users.find? (fun u => u.id == uid) = some user →
        usernameTaken db user uu = false →
        emailTaken db user uu = false →
        ∃ user2 : User, (update_user db uid uu).2 = .ok user2 ∧
          (uu.username.value = none → user2.username = user.username) ∧
          (∀ v, uu.username = .val v → user2.username = v) ∧
          (uu.email.value = none → user2.email = user.email) ∧
          (∀ v, uu.email = .val v → user2.email = v) ∧
          (uu.image_file.value = none → user2.image_file = user.image_file) ∧
          (∀ v, uu.image_file = .val v → user2.image_file = some v)) ∧
    (∀ (db : Store) (pid : Nat) (pd : PostUpdate) (post : Post),
        db.posts.find? (fun p => p.id == pid) = some post →
        pd.title ≠ .null → pd.content ≠ .null → pd.published ≠ .null →
        ∃ post2 : Post, (update_post_patch db pid pd).2 = .ok post2 ∧
          (pd.title = .unset → post2.title = post.title) ∧
          (∀ v, pd.title = .val v → post2.title = v) ∧
          (pd.content = .unset → post2.content = post.content) ∧
          (∀ v, pd.content = .val v → post2.content = v) ∧
          (pd.published = .unset → post2.published = post.published) ∧
          (∀ v, pd.published = .val v → post2.published = v)) ∧
    (∀ (db : Store) (pid : Nat) (pd : PostUpdate) (post : Post),
        db.posts.find? (fun p => p.id == pid) = some post →
        (pd.title = .null ∨ pd.content = .null ∨ pd.published = .null) →
        update_post_patch db pid pd = (db, .integrityError)) := by
  refine ⟨?_, ?_, ?_⟩
  · intro db uid uu user hfind h1 h2
    have hok : (update_user db uid uu).2 = .ok
        { user with
          username := (uu.username.value).getD user.username
          email := (uu.email.value).getD user.email
          image_file :=
            match uu.image_file.value with
            | some f => some f
            | none => user.image_file } := by
      simp [update_user, hfind, h1, h2]
    refine ⟨_, hok, ?_, ?_, ?_, ?_, ?_, ?_⟩ <;>
      first
        | intro h; simp [h]
        | intro v h; simp [h, Tri.value]
  · intro db pid pd post hfind h1 h2 h3
    have hcond : (pd.title == Tri.null || pd.content == Tri.null ||
        pd.published == Tri.null) = false := by
      simp [h1, h2, h3]
    have hok : (update_post_patch db pid pd).2 = .ok
        { post with
          title := match pd.title with | .val v => v | _ => post.title
          content := match pd.content with | .val v => v | _ => post.content
          published := match pd.published with | .val v => v | _ => post.published } := by
      simp [update_post_patch, hfind, hcond]
    refine ⟨_, hok, ?_, ?_, ?_, ?_, ?_, ?_⟩ <;>
      first
        | intro h; simp [h]
        | intro v h; simp [h]
  · intro db pid pd post hfind hnull
    have hcond : (pd.title == Tri.null || pd.content == Tri.null ||
        pd.published == Tri.null) = true := by
      rcases hnull with h | h | h <;> simp [h]
    simp [update_post_patch, hfind, hcond]

/-- Concrete run of the amended C3 at a store of one user and one post. -/
theorem C3_partial_update_semantics_witness :
    (∃ user2 : User,
        (update_user ⟨[⟨1, "bob", "bob@example.com", none⟩], [], 0⟩ 1
            ⟨.val "carol", .unset, .val "b.png"⟩).2 = .ok user2 ∧
          user2.username = "carol" ∧ user2.email = "bob@example.com" ∧
          user2.image_file = some "b.png") ∧
    (∃ post2 : Post,
        (update_post_patch ⟨[⟨1, "bob", "bob@example.com", none⟩],
            [⟨1, "t", "c", false, 1, 0⟩], 1⟩ 1
            ⟨.unset, .val "c2", .unset⟩).2 = .ok post2 ∧
          post2.title = "t" ∧ post2.content = "c2" ∧ post2.published = false) ∧
    update_post_patch ⟨[⟨1, "bob", "bob@example.com", none⟩],
        [⟨1, "t", "c", false, 1, 0⟩], 1⟩ 1 ⟨.unset, .unset, .null⟩ =
      (⟨[⟨1, "bob", "bob@example.com", none⟩], [⟨1, "t", "c", false, 1, 0⟩], 1⟩,
        .integrityError) := by
  refine ⟨?_, ?_, ?_⟩
  · obtain ⟨u2, hok, _, hun, hem, _, _, him⟩ :=
      C3_partial_update_semantics.1 ⟨[⟨1, "bob", "bob@example.com", none⟩], [], 0⟩ 1
        ⟨.val "carol", .unset, .val "b.png"⟩ ⟨1, "bob", "bob@example.com", none⟩
        (by decide) (by decide) (by decide)
    exact ⟨u2, hok, hun "carol" rfl, hem rfl, him "b.png" rfl⟩
  · obtain ⟨p2, hok, hti, _, _, hco, hpu, _⟩ :=
      C3_partial_update_semantics.2.1 ⟨[⟨1, "bob", "bob@example.com", none⟩],
        [⟨1, "t", "c", false, 1, 0⟩], 1⟩ 1 ⟨.unset, .val "c2", .unset⟩
        ⟨1, "t", "c", false, 1, 0⟩ (by decide) (by decide) (by decide) (by decide)
    exact ⟨p2, hok, hti rfl, hco "c2" rfl, hpu rfl⟩
  · exact C3_partial_update_semantics.2.2 ⟨[⟨1, "bob", "bob@example.com", none⟩],
      [⟨1, "t", "c", false, 1, 0⟩], 1⟩ 1 ⟨.unset, .unset, .null⟩
      ⟨1, "t", "c", false, 1, 0⟩ (by decide) (.inr (.inr rfl))

/-- C4: a PATCH whose body is exactly published set to true updates the stored
row to published and leaves its title, content and every other field unchanged. -/
theorem C4_patch_published_only (db : Store) (pid : Nat) (post : Post)
    (hfind : db.posts.find? (fun p => p.id == pid) = some post) :
    update_post_patch db pid ⟨.unset, .unset, .val true⟩ =
      ({ db with posts := replacePost db.posts { post with published := true } },
        .ok { post with published := true }) := by
  simp [update_post_patch, hfind]

/-- Concrete run of C4 at a one-post store. -/
theorem C4_patch_published_only_witness :
    update_post_patch ⟨[⟨1, "bob", "bob@example.com", none⟩],
        [⟨5, "t", "c", false, 1, 0⟩], 1⟩ 5 ⟨.unset, .unset, .val true⟩ =
      (⟨[⟨1, "bob", "bob@example.com", none⟩], [⟨5, "t", "c", true, 1, 0⟩], 1⟩,
        .ok ⟨5, "t", "c", true, 1, 0⟩) := by
  have h := C4_patch_published_only ⟨[⟨1, "bob", "bob@example.com", none⟩],
    [⟨5, "t", "c", false, 1, 0⟩], 1⟩ 5 ⟨5, "t", "c", false, 1, 0⟩ (by decide)
  simpa [replacePost] using h

/-- C5: creating a user whose username or email is already stored fails with a
400 Conflict whose detail names the colliding field, and the users table is
unchanged. -/
theorem C5_create_user_conflict (db : Store) (uc : UserCreate)
    (h : ∃ u ∈ db.users, u.username = uc.username ∨ u.email = uc.email) :
    (create_user db uc).1 = db ∧
      ∃ e : HTTPException, (create_user db uc).2 = .error e ∧ e.status_code = 400 ∧
        ((e.detail = "Username already exists" ∧
            ∃ u ∈ db.users, u.username = uc.username) ∨
          (e.detail = "Email already registered" ∧
            ∃ u ∈ db.users, u.email = uc.email)) := by
  rcases hfu : db.users.find? (fun u => u.username == uc.username) with _ | w
  · obtain ⟨u, hu, hcol⟩ := h
    have hne : ¬ u.username = uc.username := by
      have := List.find?_eq_none.mp hfu u hu
      simpa using this
    have hemail : u.email = uc.email := hcol.resolve_left hne
    rcases hfe : db.users.find? (fun u => u.email == uc.email) with _ | w2
    · exact absurd (List.find?_eq_none.mp hfe u hu) (by simp [hemail])
    · exact ⟨by simp [create_user, hfu, hfe],
        ⟨400, "Email already registered"⟩, by simp [create_user, hfu, hfe],
        rfl, .inr ⟨rfl, u, hu, hemail⟩⟩
  · have hw : w.username = uc.username := by
      simpa using List.find?_some hfu
    exact ⟨by simp [create_user, hfu], ⟨400, "Username already exists"⟩,
      by simp [create_user, hfu], rfl,
      .inl ⟨rfl, w, List.mem_of_find?_eq_some hfu, hw⟩⟩

/-- Concrete run of C5: a second alice collides on username. -/
theorem C5_create_user_conflict_witness :
    (create_user ⟨[⟨1, "alice", "alice@example.com", none⟩], [], 0⟩
        ⟨"alice", "other@example.com"⟩).1 =
      ⟨[⟨1, "alice", "alice@example.com", none⟩], [], 0⟩ ∧
    ∃ e : HTTPException,
      (create_user ⟨[⟨1, "alice", "alice@example.com", none⟩], [], 0⟩
          ⟨"alice", "other@example.com"⟩).2 = .error e ∧ e.status_code = 400 ∧
        ((e.detail = "Username already exists" ∧
            ∃ u ∈ [(⟨1, "alice", "alice@example.com", none⟩ : User)],
              u.username = "alice") ∨
          (e.detail = "Email already registered" ∧
            ∃ u ∈ [(⟨1, "alice", "alice@example.com", none⟩ : User)],
              u.email = "other@example.com")) :=
  C5_create_user_conflict ⟨[⟨1, "alice", "alice@example.com", none⟩], [], 0⟩
    ⟨"alice", "other@example.com"⟩
    ⟨⟨1, "alice", "alice@example.com", none⟩, by simp, .inl rfl⟩

/-- C6: a PUT of a post whose body omits title, content or user_id fails in
schema validation with a nonempty per-field error list, and the store - hence
the existing record - is unchanged. -/
theorem C6_put_missing_required_field (db : Store) (pid : Nat) (raw : RawPostPayload)
    (h : raw.title = .unset ∨ raw.content = .unset ∨ raw.user_id = .unset) :
    (put_post_endpoint db pid raw).1 = db ∧
      (put_post_endpoint db pid raw).2 = .error (.validation (postCreateErrors raw)) ∧
      postCreateErrors raw ≠ [] := by
  have hne : postCreateErrors raw ≠ [] := by
    rcases h with h | h | h
    · refine List.ne_nil_of_mem
        (a := (⟨"title", "Field required"⟩ : ValidationErrorItem)) ?_
      simp [postCreateErrors, h]
    · refine List.ne_nil_of_mem
        (a := (⟨"content", "Field required"⟩ : ValidationErrorItem)) ?_
      simp [postCreateErrors, h]
    · refine List.ne_nil_of_mem
        (a := (⟨"user_id", "Field required"⟩ : ValidationErrorItem)) ?_
      simp [postCreateErrors, h]
  have hempty : (postCreateErrors raw).isEmpty = false := by
    simpa [List.isEmpty_iff] using hne
  have hval : validatePostCreate raw = .error (postCreateErrors raw) := by
    simp [validatePostCreate, hempty]
  exact ⟨by simp [put_post_endpoint, hval], by simp [put_post_endpoint, hval], hne⟩

/-- Concrete run of C6: a PUT body missing its title is rejected and the
stored post keeps its fields. -/
theorem C6_put_missing_required_field_witness :
    (put_post_endpoint ⟨[⟨1, "bob", "bob@example.com", none⟩],
        [⟨1, "t", "c", false, 1, 0⟩], 1⟩ 1 ⟨.unset, .val "c2", .unset, .val 1⟩).1 =
      ⟨[⟨1, "bob", "bob@example.com", none⟩], [⟨1, "t", "c", false, 1, 0⟩], 1⟩ ∧
    (put_post_endpoint ⟨[⟨1, "bob", "bob@example.com", none⟩],
        [⟨1, "t", "c", false, 1, 0⟩], 1⟩ 1 ⟨.unset, .val "c2", .unset, .val 1⟩).2 =
      .error (.validation (postCreateErrors ⟨.unset, .val "c2", .unset, .val 1⟩)) ∧
    postCreateErrors ⟨.unset, .val "c2", .unset, .val 1⟩ ≠ [] :=
  C6_put_missing_required_field ⟨[⟨1, "bob", "bob@example.com", none⟩],
    [⟨1, "t", "c", false, 1, 0⟩], 1⟩ 1 ⟨.unset, .val "c2", .unset, .val 1⟩
    (.inl rfl)

/-- C7: on a store whose posts all reference stored users, creating a post or
fully updating one with a user_id that matches no stored user fails with a 404
and leaves the store unchanged, and every successful create or full update
yields a post whose user_id references a stored user. -/
theorem C7_owner_reference_exists (db : Store) (hval : PostsValid db) :
    (∀ pc : PostCreate, db.users.find? (fun u => u.id == pc.user_id) = none →
        create_post db pc = (db, .error ⟨404, "User not found"⟩)) ∧
    (∀ (pid : Nat) (pd : PostCreate),
        db.users.find? (fun u => u.id == pd.user_id) = none →
        (update_post_full db pid pd).1 = db ∧
          ∃ e : HTTPException, (update_post_full db pid pd).2 = .error e ∧
            e.status_code = 404) ∧
    (∀ (pc : PostCreate) (s : Store) (np : Post),
        create_post db pc = (s, .ok np) → ∃ u ∈ s.users, u.id = np.user_id) ∧
    (∀ (pid : Nat) (pd : PostCreate) (s : Store) (np : Post),
        update_post_full db pid pd = (s, .ok np) → ∃ u ∈ s.users, u.id = np.user_id) := by
  refine ⟨?_, ?_, ?_, ?_⟩
  · intro pc hnone
    simp [create_post, hnone]
  · intro pid pd hnone
    rcases hp : db.posts.find? (fun p => p.id == pid) with _ | post
    · exact ⟨by simp [update_post_full, hp], ⟨404, "Post not found"⟩,
        by simp [update_post_full, hp], rfl⟩
    · have hmem := List.mem_of_find?_eq_some hp
      obtain ⟨u, hu, huid⟩ := hval post hmem
      have hneq : pd.user_id ≠ post.user_id := by
        intro heq
        have := List.find?_eq_none.mp hnone u hu
        simp [huid, heq] at this
      exact ⟨by simp [update_post_full, hp, hneq, hnone],
        ⟨404, "User not found"⟩, by simp [update_post_full, hp, hneq, hnone], rfl⟩
  · intro pc s np hok
    rcases hu : db.users.find? (fun u => u.id == pc.user_id) with _ | u
    · simp [create_post, hu] at hok
    · have huid : u.id = pc.user_id := by simpa using List.find?_some hu
      have hmem := List.mem_of_find?_eq_some hu
      simp [create_post, hu] at hok
      refine ⟨u, ?_, ?_⟩
      · rw [← hok.1]
        exact hmem
      · rw [← hok.2]
        exact huid
  · intro pid pd s np hok
    rcases hp : db.posts.find? (fun p => p.id == pid) with _ | post
    · simp [update_post_full, hp] at hok
    · by_cases hcond : (pd.user_id != post.user_id &&
          (db.users.find? (fun u => u.id == pd.user_id)).isNone) = true
      · simp [update_post_full, hp, hcond] at hok
      · simp [update_post_full, hp, hcond] at hok
        have husers : s.users = db.users := by rw [← hok.1]
        have hnp : np.user_id = pd.user_id := by rw [← hok.2]
        rcases hfu : db.users.find? (fun u => u.id == pd.user_id) with _ | u
        · have heq : pd.user_id = post.user_id := by
            rcases Bool.and_eq_false_iff.mp (Bool.not_eq_true _ ▸ hcond) with hbne | hnone2
            · simpa using hbne
            · simp [hfu] at hnone2
          obtain ⟨u, hu, huid⟩ := hval post (List.mem_of_find?_eq_some hp)
          exact ⟨u, husers ▸ hu, by rw [huid, hnp, heq]⟩
        · have huid : u.id = pd.user_id := by simpa using List.find?_some hfu
          exact ⟨u, husers ▸ List.mem_of_find?_eq_some hfu, by rw [huid, hnp]⟩

/-- Concrete run of C7 at a store of one user and no posts. -/
theorem C7_owner_reference_exists_witness :
    (∀ pc : PostCreate,
        (⟨[⟨1, "bob", "bob@example.com", none⟩], [], 0⟩ : Store).users.find?
            (fun u => u.id == pc.user_id) = none →
        create_post ⟨[⟨1, "bob", "bob@example.com", none⟩], [], 0⟩ pc =
          (⟨[⟨1, "bob", "bob@example.com", none⟩], [], 0⟩,
            .error ⟨404, "User not found"⟩)) ∧
    (∀ (pid : Nat) (pd : PostCreate),
        (⟨[⟨1, "bob", "bob@example.com", none⟩], [], 0⟩ : Store).users.find?
            (fun u => u.id == pd.user_id) = none →
        (update_post_full ⟨[⟨1, "bob", "bob@example.com", none⟩], [], 0⟩ pid pd).1 =
            ⟨[⟨1, "bob", "bob@example.com", none⟩], [], 0⟩ ∧
          ∃ e : HTTPException,
            (update_post_full ⟨[⟨1, "bob", "bob@example.com", none⟩], [], 0⟩
                pid pd).2 = .error e ∧ e.status_code = 404) ∧
    (∀ (pc : PostCreate) (s : Store) (np : Post),
        create_post ⟨[⟨1, "bob", "bob@example.com", none⟩], [], 0⟩ pc = (s, .ok np) →
          ∃ u ∈ s.users, u.id = np.user_id) ∧
    (∀ (pid : Nat) (pd : PostCreate) (s : Store) (np : Post),
        update_post_full ⟨[⟨1, "bob", "bob@example.com", none⟩], [], 0⟩ pid pd =
            (s, .ok np) → ∃ u ∈ s.users, u.id = np.user_id) :=
  C7_owner_reference_exists ⟨[⟨1, "bob", "bob@example.com", none⟩], [], 0⟩
    (fun p hp => absurd hp (by simp))

/-- C8: get_post on an id with no stored post raises exactly the 404 with
detail "Post not found"; the shadowed error translator then never renders the
claimed JSON body on the api path, for any recursion budget. -/
theorem C8_get_missing_post (db : Store) (pid : Nat) (path : String)
    (hfind : db.posts.find? (fun p => p.id == pid) = none)
    (hpath : startswith path "/api" = true) :
    get_post db pid = .error ⟨404, "Post not found"⟩ ∧
      ∀ fuel : Nat, http_exception_handler fuel path ⟨404, "Post not found"⟩ = none :=
  ⟨by simp [get_post, hfind], fun fuel => api_branch_no_response fuel path _ hpath⟩

/-- Concrete run of C8 at GET /api/posts/9999 on a store with no posts. -/
theorem C8_get_missing_post_witness :
    get_post ⟨[⟨1, "bob", "bob@example.com", none⟩], [], 0⟩ 9999 =
        .error ⟨404, "Post not found"⟩ ∧
      ∀ fuel : Nat,
        http_exception_handler fuel "/api/posts/9999" ⟨404, "Post not found"⟩ = none :=
  C8_get_missing_post ⟨[⟨1, "bob", "bob@example.com", none⟩], [], 0⟩ 9999
    "/api/posts/9999" (by decide) (by decide)

/-- C9: a validation failure on a request whose path does not start with /api
is rendered as the error page with status 422 and one fixed generic message,
independent of which fields were invalid. -/
theorem C9_nonapi_validation_fixed_page (path : String)
    (errs errs2 : List ValidationErrorItem)
    (h : startswith path "/api" = false) :
    validation_exception_handler path errs =
        .page ⟨422, "Invalid Request",
          "Some fields contain invalid data. Please check your input and try again."⟩ ∧
      validation_exception_handler path errs = validation_exception_handler path errs2 := by
  simp [validation_exception_handler, h]

/-- Concrete run of C9 at the page path /posts with two different error lists. -/
theorem C9_nonapi_validation_fixed_page_witness :
    validation_exception_handler "/posts" [⟨"title", "bad"⟩] =
        .page ⟨422, "Invalid Request",
          "Some fields contain invalid data. Please check your input and try again."⟩ ∧
      validation_exception_handler "/posts" [⟨"title", "bad"⟩] =
        validation_exception_handler "/posts" [] :=
  C9_nonapi_validation_fixed_page "/posts" [⟨"title", "bad"⟩] [] (by decide)

/-- C10: the published value of a post-creation payload is discarded: the
outcome of create_post is identical whatever published value the payload
carries, and a successfully created post carries the store default. -/
theorem C10_create_post_discards_published (db : Store) (pc : PostCreate) :
    (∀ b : Bool, create_post db { pc with published := b } = create_post db pc) ∧
    (∀ (s : Store) (np : Post), create_post db pc = (s, .ok np) →
        np.published = defaultPublished) := by
  constructor
  · intro b
    simp [create_post]
  · intro s np hok
    rcases hu : db.users.find? (fun u => u.id == pc.user_id) with _ | u
    · simp [create_post, hu] at hok
    · simp [create_post, hu] at hok
      rw [← hok.2]

/-- Concrete run of C10: a payload with published true still yields a post
with the store default published value. -/
theorem C10_create_post_discards_published_witness :
    create_post ⟨[⟨1, "bob", "bob@example.com", none⟩], [], 0⟩ ⟨"t", "c", true, 1⟩ =
        create_post ⟨[⟨1, "bob", "bob@example.com", none⟩], [], 0⟩
          ⟨"t", "c", false, 1⟩ ∧
      (⟨1, "t", "c", false, 1, 0⟩ : Post).published = defaultPublished :=
  ⟨(C10_create_post_discards_published ⟨[⟨1, "bob", "bob@example.com", none⟩], [], 0⟩
      ⟨"t", "c", false, 1⟩).1 true,
    (C10_create_post_discards_published ⟨[⟨1, "bob", "bob@example.com", none⟩], [], 0⟩
      ⟨"t", "c", false, 1⟩).2
      ⟨[⟨1, "bob", "bob@example.com", none⟩], [⟨1, "t", "c", false, 1, 0⟩], 1⟩
      ⟨1, "t", "c", false, 1, 0⟩ rfl⟩
